import Mathlib

/-!
# ddcvolume — verification of the cached volume state manager

Shallow embedding of `src/ddcvolume/cmd_ddcvolume.py` (class `DDCVolume`
and the `main` `--set`/`--get` flows).

Modelling conventions:
* The per-user runtime directory is a `State` record holding the contents
  of the `volume` and `notification_id` files (`Option String`, `none`
  meaning the file does not exist) and the list of volumes written to
  hardware (`hwWrites`, most recent first).  The advisory `flock` calls
  serialise concurrent processes; within the single process modelled here
  they are no-ops and are not represented.
* Python exceptions are an explicit `PyError`; every operation returns
  `Except PyError α × State`, threading the (possibly updated) state also
  on the error path, so that "no write happened before the exception" is
  a provable statement rather than a modelling artifact.
* Python's builtin `int(str)` is modelled by `pyInt`: surrounding ASCII
  whitespace is stripped, then an optional sign followed by a non-empty
  ASCII digit run.  Python's underscore digit grouping and non-ASCII
  digits are outside the model.
* `subprocess` calls to `ddcutil` appear as the `hwWrites` trace (for
  `setvcp`) and as a hardware-reply parameter (for `getvcp`); the dbus
  `Notify` call's outcome is a `reply` parameter of `send_notify`.
-/

namespace DDCVolume

/-- Python exceptions that the modelled code can raise. -/
inductive PyError where
  /-- Python `ValueError`, raised by `int()` on an unparsable string. -/
  | valueError
  /-- Python `IndexError`, raised by `volume_str[0]` on an empty string. -/
  | indexError
  /-- Python `NameError`, raised when an undefined name is evaluated
      (the source's `filenotfounderror` and `true` are undefined). -/
  | nameError
  /-- Python `FileNotFoundError`, raised by `open(path, "r+")` on a missing file. -/
  | fileNotFoundError
  /-- A dbus exception from the `Notify` IPC call. -/
  | dbusError
  deriving DecidableEq, Repr

/-- Decidable equality for results, needed so closed facts about the
    operations can be settled by evaluation. -/
instance {ε α : Type} [DecidableEq ε] [DecidableEq α] : DecidableEq (Except ε α) := fun x y =>
  match x, y with
  | .error a, .error b =>
    if h : a = b then .isTrue (by rw [h]) else .isFalse (by simp [h])
  | .ok a, .ok b =>
    if h : a = b then .isTrue (by rw [h]) else .isFalse (by simp [h])
  | .error a, .ok b => .isFalse (by simp)
  | .ok a, .error b => .isFalse (by simp)

/-- ASCII whitespace as stripped by Python's `int()`
    (space, tab, newline, vertical tab, form feed, carriage return). -/
def isPySpace (c : Char) : Bool :=
  c.toNat = 32 || c.toNat = 9 || c.toNat = 10 || c.toNat = 11 ||
  c.toNat = 12 || c.toNat = 13

/-- ASCII decimal digit. -/
def isPyDigit (c : Char) : Bool :=
  48 ≤ c.toNat && c.toNat ≤ 57

/-- Numeric value of an ASCII digit character. -/
def digitVal (c : Char) : Nat := c.toNat - 48

/-- Value of a digit run, most significant first. -/
def digitsToNat (cs : List Char) : Nat :=
  cs.foldl (fun a c => 10 * a + digitVal c) 0

/-- A non-empty all-digit run parses to its value; anything else fails. -/
def pyIntDigits (cs : List Char) : Option Nat :=
  if cs ≠ [] ∧ cs.all isPyDigit then some (digitsToNat cs) else none

/-- Strip leading and trailing ASCII whitespace. -/
def stripChars (cs : List Char) : List Char :=
  ((cs.dropWhile isPySpace).reverse.dropWhile isPySpace).reverse

/-- Sign handling of Python's `int(s)` after whitespace stripping:
    an optional single leading sign, then a digit run. -/
def pySign : List Char → Option Int
  | [] => none
  | c :: rest =>
    if c = '+' then (pyIntDigits rest).map Int.ofNat
    else if c = '-' then (pyIntDigits rest).map (fun n => -(n : Int))
    else (pyIntDigits (c :: rest)).map Int.ofNat

/-- Python's `int(s)`: strip whitespace, optional single sign, digit run.
    A `none` result models a raised `ValueError`. -/
def pyInt (s : String) : Option Int :=
  pySign (stripChars s.toList)

/-- The on-disk state of the runtime directory, plus the trace of volumes
    written to hardware (`sudo ddcutil … setvcp 62 -- <v>`), most recent
    first. -/
structure State where
  /-- Contents of the `volume` file; `none` = file absent. -/
  volumeFile : Option String
  /-- Contents of the `notification_id` file; `none` = file absent. -/
  notificationFile : Option String
  /-- Volumes pushed to hardware, most recent first. -/
  hwWrites : List Int
  deriving DecidableEq, Repr

/-- Method `DDCVolume.commit` (source lines 53–54): unconditionally runs
    `sudo ddcutil --noverify --bus <bus> setvcp 62 -- <volume>` with the
    volume it was passed.  No cached or committed value is consulted and
    no committed-value record is written. -/
def commit (volume : Int) (st : State) : State :=
  { st with hwWrites := volume :: st.hwWrites }

/-- Method `DDCVolume._refresh` (lines 122–127): the call
    `subprocess.check_output(..., text=true)` evaluates the undefined
    name `true`, so a `NameError` is raised while building the argument
    list, before the subprocess runs or anything is written. -/
def _refresh (st : State) : Except PyError Int × State :=
  (.error .nameError, st)

/-- The value `_refresh` would persist had its arguments evaluated:
    line 124 takes the fourth whitespace-separated token of the
    `ddcutil getvcp` output and converts it with `int`, unclamped. -/
def refreshParse (output : String) : Option Int :=
  match ((output.toList.splitOnP isPySpace).filter (· ≠ [])).get? 3 with
  | some tok => pyInt (String.mk tok)
  | none => none

/-- Method `DDCVolume._get` (lines 114–120): read and parse the `volume` file.
    On a missing file Python raises `FileNotFoundError` and then, while
    matching the handler, evaluates the undefined name
    `filenotfounderror` — so a `NameError` propagates and `_refresh` is
    never reached. -/
def _get (st : State) : Except PyError Int × State :=
  match st.volumeFile with
  | some content =>
    match pyInt content with
    | some v => (.ok v, st)
    | none => (.error .valueError, st)
  | none => (.error .nameError, st)

/-- Method `DDCVolume._update_volume` (lines 108–112): `volume_str[0]` raises
    `IndexError` on the empty string; a leading `+`/`-` selects the
    relative branch (`int` of the whole string, sign included, added to
    the current volume), anything else the absolute branch; both clamp
    with `max(0, min(_, 100))`. -/
def _update_volume (volume : Int) (volume_str : String) : Except PyError Int :=
  match volume_str.toList with
  | [] => .error .indexError
  | c :: _ =>
    if c = '+' ∨ c = '-' then
      match pyInt volume_str with
      | some d => .ok (max 0 (min (volume + d) 100))
      | none => .error .valueError
    else
      match pyInt volume_str with
      | some t => .ok (max 0 (min t 100))
      | none => .error .valueError

/-- Method `DDCVolume.set` (lines 56–63): under the lock, read the current
    volume, compute the new one, and only then `open(..., "w")` (which
    truncates) and write its decimal string; the new volume is returned.
    If `_get` or `_update_volume` raises, the `volume` file is not
    opened, hence untouched. -/
def set (volume_str : String) (st : State) : Except PyError Int × State :=
  match _get st with
  | (.error e, st) => (.error e, st)
  | (.ok volume, st) =>
    match _update_volume volume volume_str with
    | .error e => (.error e, st)
    | .ok volume => (.ok volume, { st with volumeFile := some (toString volume) })

/-- Method `DDCVolume.get` (lines 65–68): under the lock, `_get`. -/
def get (st : State) : Except PyError Int × State :=
  _get st

/-- Icon selection of `send_notify` (lines 82–87). -/
def iconFor (volume : Int) : String :=
  if volume < 33 then "audio-volume-low-symbolic"
  else if volume < 66 then "audio-volume-medium-symbolic"
  else "audio-volume-high-symbolic"

/-- The arguments `send_notify` passes to the dbus `Notify` call
    (lines 93–105). -/
structure NotifyRequest where
  /-- Field `replaces_id`: the previously stored handle. -/
  replacesId : Int
  /-- Field `app_icon`. -/
  appIcon : String
  /-- Field `summary`. -/
  summary : String
  /-- The numeric `value` hint. -/
  valueHint : Int
  /-- Expiry timeout in milliseconds. -/
  expiry : Int
  deriving DecidableEq, Repr

/-- A write at file position 0 without truncation (`open(..., "r+")`,
    `seek(0)`, `write`): the new text overlays the old content, and any
    old bytes past the end of the new text remain. -/
def overwriteAt0 (old new : String) : String :=
  new ++ String.mk (old.toList.drop new.toList.length)

/-- Reading of the stored notification handle (lines 74–80): an empty
    content yields 0; otherwise `int(content)`, raising `ValueError` when
    unparsable. -/
def readNotifyId (content : String) : Except PyError Int :=
  if content = "" then .ok 0
  else match pyInt content with
    | some n => .ok n
    | none => .error .valueError

/-- Method `DDCVolume.send_notify` (lines 70–106): `open(..., "r+")` raises
    `FileNotFoundError` if `notification_id` is absent; an empty content
    gives handle 0; otherwise `int(content)` (a `ValueError` if
    unparsable).  The dbus `Notify` call's outcome is the `reply`
    parameter; on success its handle is written back at position 0
    without truncating, followed by a newline.  Returns the request made
    to the notification service. -/
def send_notify (reply : Except PyError Int) (volume : Int) (st : State) :
    Except PyError NotifyRequest × State :=
  match st.notificationFile with
  | none => (.error .fileNotFoundError, st)
  | some content =>
    match readNotifyId content with
    | .error e => (.error e, st)
    | .ok notifyId =>
      match reply with
      | .error e => (.error e, st)
      | .ok newId =>
        (.ok { replacesId := notifyId, appIcon := iconFor volume,
               summary := "Volume " ++ toString volume ++ "%",
               valueHint := volume, expiry := 2000 },
         { st with notificationFile := some (overwriteAt0 content (toString newId ++ "\n")) })

/-- The `--set` flow of `main` (lines 195–199): `set`, then
    `send_notify`, then `commit` with the volume returned by `set`.
    There is no exception handler, so a failure of any step propagates
    and the following steps do not run. -/
def mainSet (reply : Except PyError Int) (volume_str : String) (st : State) :
    Except PyError Unit × State :=
  match set volume_str st with
  | (.error e, st) => (.error e, st)
  | (.ok volume, st) =>
    match send_notify reply volume st with
    | (.error e, st) => (.error e, st)
    | (.ok _, st) => (.ok (), commit volume st)

/-- The `--get` flow of `main` (lines 193–194): print `get`. -/
def mainGet (st : State) : Except PyError Int × State :=
  get st


/-! ## Parser lemmas -/

theorem isPySpace_eq_false_of_isPyDigit {c : Char} (h : isPyDigit c = true) :
    isPySpace c = false := by
  simp only [isPyDigit, Bool.and_eq_true, decide_eq_true_eq] at h
  simp only [isPySpace, Bool.or_eq_false_iff, decide_eq_false_iff_not]
  omega

theorem dropWhile_eq_self_of_all {α : Type} {p : α → Bool} :
    ∀ {l : List α}, (∀ x ∈ l, p x = false) → l.dropWhile p = l
  | [], _ => rfl
  | a :: l, h => by
    rw [List.dropWhile_cons]
    simp only [h a (List.mem_cons_self a l), Bool.false_eq_true, if_false]

theorem stripChars_eq_self {cs : List Char} (h : ∀ x ∈ cs, isPySpace x = false) :
    stripChars cs = cs := by
  unfold stripChars
  rw [dropWhile_eq_self_of_all h,
      dropWhile_eq_self_of_all (fun x hx => h x (List.mem_reverse.mp hx)),
      List.reverse_reverse]

theorem all_digits_not_space {ds : List Char} (h : ds.all isPyDigit = true) :
    ∀ x ∈ ds, isPySpace x = false := fun x hx =>
  isPySpace_eq_false_of_isPyDigit (List.all_eq_true.mp h x hx)

theorem pyIntDigits_some {ds : List Char} {d : Nat} (h : pyIntDigits ds = some d) :
    ds ≠ [] ∧ ds.all isPyDigit = true := by
  unfold pyIntDigits at h
  split at h
  · next hc => exact ⟨hc.1, by simpa using hc.2⟩
  · exact absurd h (by simp)

theorem plus_append_toList (ds : String) : ("+" ++ ds).toList = '+' :: ds.toList := by
  cases ds with
  | mk data => rfl

theorem minus_append_toList (ds : String) : ("-" ++ ds).toList = '-' :: ds.toList := by
  cases ds with
  | mk data => rfl

theorem pyInt_plus_digits {ds : String} {d : Nat} (h : pyIntDigits ds.toList = some d) :
    pyInt ("+" ++ ds) = some (d : Int) := by
  obtain ⟨hne, hdig⟩ := pyIntDigits_some h
  unfold pyInt
  rw [plus_append_toList,
      stripChars_eq_self (by
        intro x hx
        rcases List.mem_cons.mp hx with rfl | hx
        · decide
        · exact all_digits_not_space hdig x hx)]
  have hd : pyIntDigits ds.data = some d := h
  simp [pySign, hd]

theorem pyInt_minus_digits {ds : String} {d : Nat} (h : pyIntDigits ds.toList = some d) :
    pyInt ("-" ++ ds) = some (-(d : Int)) := by
  obtain ⟨hne, hdig⟩ := pyIntDigits_some h
  unfold pyInt
  rw [minus_append_toList,
      stripChars_eq_self (by
        intro x hx
        rcases List.mem_cons.mp hx with rfl | hx
        · decide
        · exact all_digits_not_space hdig x hx)]
  have hd : pyIntDigits ds.data = some d := h
  simp [pySign, hd]

theorem toList_ne_nil_of_ne_empty {s : String} (h : s ≠ "") : s.toList ≠ [] := by
  intro hn
  apply h
  cases s with
  | mk data =>
    have hd : data = [] := hn
    subst hd
    rfl

/-! ## Operation lemmas -/

theorem update_volume_cons {p : Int} {s : String} {c : Char} {cs : List Char}
    (hs : s.toList = c :: cs) :
    _update_volume p s =
      (if c = '+' ∨ c = '-' then
        match pyInt s with
        | some d => .ok (max 0 (min (p + d) 100))
        | none => .error .valueError
      else
        match pyInt s with
        | some t => .ok (max 0 (min t 100))
        | none => .error .valueError) := by
  unfold _update_volume
  rw [hs]

theorem update_volume_plus (p : Int) {ds : String} {d : Nat}
    (h : pyIntDigits ds.toList = some d) :
    _update_volume p ("+" ++ ds) = .ok (max 0 (min (p + (d : Int)) 100)) := by
  have hl : ("+" ++ ds).toList = '+' :: ds.toList := plus_append_toList ds
  simp [_update_volume, hl, pyInt_plus_digits h]

theorem update_volume_minus (p : Int) {ds : String} {d : Nat}
    (h : pyIntDigits ds.toList = some d) :
    _update_volume p ("-" ++ ds) = .ok (max 0 (min (p - (d : Int)) 100)) := by
  have hl : ("-" ++ ds).toList = '-' :: ds.toList := minus_append_toList ds
  simp [_update_volume, hl, pyInt_minus_digits h, sub_eq_add_neg]

theorem update_volume_abs (p t : Int) {s : String} {c : Char} {cs : List Char}
    (hs : s.toList = c :: cs) (h1 : c ≠ '+') (h2 : c ≠ '-')
    (ht : pyInt s = some t) :
    _update_volume p s = .ok (max 0 (min t 100)) := by
  have hd : s.data = c :: cs := hs
  simp [_update_volume, hd, h1, h2, ht]

theorem update_volume_ok_range {p : Int} {s : String} {v : Int}
    (h : _update_volume p s = .ok v) : 0 ≤ v ∧ v ≤ 100 := by
  have hb : ∀ x : Int, 0 ≤ max 0 (min x 100) ∧ max 0 (min x 100) ≤ 100 :=
    fun x => ⟨le_max_left _ _, max_le (by norm_num) (min_le_right _ _)⟩
  unfold _update_volume at h
  split at h
  · exact absurd h (by simp)
  · split at h
    all_goals
      cases hp : pyInt s with
      | none => rw [hp] at h; exact absurd h (by simp)
      | some x =>
        rw [hp] at h
        simp only [Except.ok.injEq] at h
        exact h ▸ hb _

theorem _get_warm {st : State} {c : String} {p : Int}
    (hc : st.volumeFile = some c) (hp : pyInt c = some p) :
    _get st = (.ok p, st) := by
  simp [_get, hc, hp]

theorem _get_snd (st : State) : (_get st).2 = st := by
  unfold _get
  split
  · split <;> rfl
  · rfl

theorem set_snd_hwWrites (s : String) (st : State) :
    ((set s st).2).hwWrites = st.hwWrites := by
  cases hg : _get st with
  | mk r st1 =>
    have hst1 : st1 = st := by
      have h := _get_snd st
      rw [hg] at h
      exact h
    subst hst1
    cases r with
    | error e => simp [set, hg]
    | ok v =>
      cases hu : _update_volume v s with
      | error e => simp [set, hg, hu]
      | ok w => simp [set, hg, hu]

theorem send_notify_snd_hwWrites (reply : Except PyError Int) (v : Int) (st : State) :
    ((send_notify reply v st).2).hwWrites = st.hwWrites := by
  cases hn : st.notificationFile with
  | none => simp [send_notify, hn]
  | some content =>
    cases hr : readNotifyId content with
    | error e => simp [send_notify, hn, hr]
    | ok nid =>
      cases reply with
      | error e => simp [send_notify, hn, hr]
      | ok newId => simp [send_notify, hn, hr]

theorem pyInt_toString_le_100 :
    ∀ v : Nat, v < 101 → pyInt (toString (v : Int)) = some (v : Int) := by
  decide

theorem toString_head_le_100 :
    ∀ v : Nat, v < 101 →
      (toString (v : Int)).toList ≠ [] ∧
      (toString (v : Int)).toList.headD ' ' ≠ '+' ∧
      (toString (v : Int)).toList.headD ' ' ≠ '-' := by
  decide

/-! ## Claims -/

/-- C1 counterexample: in a state whose cached volume reads 50 and whose
    last hardware-committed value is 50, `commit` still issues a hardware
    write, and a second `commit` in succession issues another one — the
    code is neither change-detecting nor idempotent. -/
theorem commit_not_change_detecting_cex :
    (get (State.mk (some "50") none [50])).1 = .ok 50 ∧
    (State.mk (some "50") none [50]).hwWrites.head? = some 50 ∧
    (commit 50 (State.mk (some "50") none [50])).hwWrites = [50, 50] ∧
    (commit 50 (commit 50 (State.mk (some "50") none [50]))).hwWrites = [50, 50, 50] := by
  decide

/-- C1 (amended): `commit` receives the volume as an explicit parameter
    and unconditionally issues the hardware write, reading no cached value
    and keeping no committed-value record (no file is touched); two calls
    in succession issue two writes. -/
theorem commit_unconditional_write (v : Int) (st : State) :
    (commit v st).hwWrites = v :: st.hwWrites ∧
    (commit v st).volumeFile = st.volumeFile ∧
    (commit v st).notificationFile = st.notificationFile ∧
    (commit v (commit v st)).hwWrites = v :: v :: st.hwWrites :=
  ⟨rfl, rfl, rfl, rfl⟩

/-- C2 (code bug): on a cold cache (no `volume` file) `get` does not fall
    back to a hardware read: the handler names the undefined
    `filenotfounderror`, so a `NameError` escapes, `_refresh` is never
    invoked and nothing is persisted; `_refresh` itself would also raise
    `NameError` (`text=true`).  The value its parsing step would have
    extracted from a hardware report of 62 is 62. -/
theorem get_cold_cache_raises_name_error :
    get (State.mk none none []) = (.error .nameError, State.mk none none []) ∧
    _refresh (State.mk none none []) = (.error .nameError, State.mk none none []) ∧
    refreshParse "VCP 62 C 62 100" = some 62 := by
  decide

/-- C9 (code bug): `send_notify` writes the returned handle over the old
    content without truncating (mode `r+`, `seek(0)`) and appends a
    newline: a successful publish that replaces stored handle 1000 by 7
    leaves the file holding "7\n00\n" — not the decimal representation
    of 7, with stale bytes of the longer old handle remaining — which the
    code's own reader (`int`) can no longer parse. -/
theorem notify_stale_handle_bytes :
    send_notify (.ok 7) 50 (State.mk (some "50") (some "1000\n") []) =
      (.ok (NotifyRequest.mk 1000 "audio-volume-medium-symbolic" "Volume 50%" 50 2000),
       State.mk (some "50") (some "7\n00\n") []) ∧
    ("7\n00\n" : String) ≠ toString (7 : Int) ∧
    pyInt "7\n00\n" = none := by
  decide

/-- C10: the update expression must be non-empty — `_update_volume` reads
    the character at index 0, raising `IndexError` exactly on the empty
    expression; for every non-empty expression the access is in bounds
    and no `IndexError` is raised. -/
theorem update_volume_empty_expr (p : Int) (s : String) :
    (s = "" → _update_volume p s = .error .indexError) ∧
    (s ≠ "" → _update_volume p s ≠ .error .indexError) := by
  constructor
  · rintro rfl
    rfl
  · intro h
    cases hs : s.toList with
    | nil => exact absurd hs (toList_ne_nil_of_ne_empty h)
    | cons c cs =>
      rw [update_volume_cons hs]
      split
      · cases hp : pyInt s <;> simp
      · cases hp : pyInt s <;> simp

/-- C10 witness. -/
theorem update_volume_empty_expr_witness :
    _update_volume 50 "" = .error .indexError ∧
    _update_volume 50 "+5" ≠ .error .indexError :=
  ⟨(update_volume_empty_expr 50 "").1 rfl,
   (update_volume_empty_expr 50 "+5").2 (by decide)⟩

theorem set_ok_inv {s : String} {st st' : State} {v : Int}
    (h : set s st = (.ok v, st')) :
    (0 ≤ v ∧ v ≤ 100) ∧ st' = { st with volumeFile := some (toString v) } := by
  cases hg : _get st with
  | mk r st1 =>
    have hst1 : st1 = st := by
      have h2 := _get_snd st
      rw [hg] at h2
      exact h2
    subst hst1
    cases r with
    | error e => simp [set, hg] at h
    | ok p =>
      cases hu : _update_volume p s with
      | error e => simp [set, hg, hu] at h
      | ok w =>
        simp [set, hg, hu] at h
        obtain ⟨h1, h2⟩ := h
        subst h1
        exact ⟨update_volume_ok_range hu, h2.symm⟩

/-- C3 counterexample: `commit` clamps nothing and checks nothing —
    called with 150 it pushes 150 to hardware, a committed value outside
    [0,100]; no persisted committed-value record exists that any bound
    could be maintained on. -/
theorem commit_out_of_range_cex :
    (commit 150 (State.mk (some "50") none [])).hwWrites = [150] ∧
    ¬ ((0 : Int) ≤ 150 ∧ (150 : Int) ≤ 100) := by
  decide

/-- C3 (amended): every volume `set` persists to the `volume` file is an
    integer clamped into [0,100], and every hardware write issued by the
    `--set` flow of `main` carries such a clamped value; `commit` itself
    performs no clamping and keeps no committed-value record. -/
theorem set_flow_volume_range (s : String) (st : State) :
    (∀ v st', set s st = (.ok v, st') →
      (0 ≤ v ∧ v ≤ 100) ∧ st'.volumeFile = some (toString v)) ∧
    (∀ reply r st', mainSet reply s st = (r, st') →
      ∀ w ∈ st'.hwWrites, w ∈ st.hwWrites ∨ (0 ≤ w ∧ w ≤ 100)) := by
  constructor
  · intro v st' h
    obtain ⟨hr, hst⟩ := set_ok_inv h
    exact ⟨hr, by rw [hst]⟩
  · intro reply r st' h
    cases hset : set s st with
    | mk rs st1 =>
      have h1 : st1.hwWrites = st.hwWrites := by
        have hh := set_snd_hwWrites s st
        rw [hset] at hh
        exact hh
      cases rs with
      | error e =>
        simp only [mainSet, hset] at h
        obtain ⟨_, h2⟩ := Prod.mk.injEq .. ▸ h
        intro w hw
        rw [← h2, h1] at hw
        exact Or.inl hw
      | ok v =>
        cases hnot : send_notify reply v st1 with
        | mk rn st2 =>
          have h2 : st2.hwWrites = st1.hwWrites := by
            have hh := send_notify_snd_hwWrites reply v st1
            rw [hnot] at hh
            exact hh
          cases rn with
          | error e =>
            simp only [mainSet, hset, hnot] at h
            obtain ⟨_, h3⟩ := Prod.mk.injEq .. ▸ h
            intro w hw
            rw [← h3, h2, h1] at hw
            exact Or.inl hw
          | ok req =>
            simp only [mainSet, hset, hnot] at h
            obtain ⟨_, h3⟩ := Prod.mk.injEq .. ▸ h
            have hv := (set_ok_inv hset).1
            intro w hw
            rw [← h3] at hw
            rcases List.mem_cons.mp hw with rfl | hw
            · exact Or.inr hv
            · rw [h2, h1] at hw
              exact Or.inl hw

/-- C3 witness. -/
theorem set_flow_volume_range_witness :
    (((0 : Int) ≤ 30 ∧ (30 : Int) ≤ 100) ∧
      (State.mk (some "30") (some "") [] : State).volumeFile =
        some (toString (30 : Int))) ∧
    ((30 : Int) ∈ (State.mk (some "40") (some "") [] : State).hwWrites ∨
      ((0 : Int) ≤ 30 ∧ (30 : Int) ≤ 100)) :=
  ⟨(set_flow_volume_range "30" (State.mk (some "40") (some "") [])).1 30
      (State.mk (some "30") (some "") []) (by decide),
   (set_flow_volume_range "30" (State.mk (some "40") (some "") [])).2 (.ok 1)
      (.ok ()) (State.mk (some "30") (some "1\n") [30]) (by decide) 30 (by decide)⟩

/-- C4: an expression "+d" adds d to the previous volume, "-d" subtracts
    d, and an expression whose first character is not a sign is an
    absolute target; all three results are clamped into [0,100] by
    `max(0, min(_, 100))`. -/
theorem update_relative_absolute (p : Int) (d : Nat) (ds : String)
    (hds : pyIntDigits ds.toList = some d) (s : String) (t : Int)
    (c : Char) (cs : List Char) (hs : s.toList = c :: cs)
    (h1 : c ≠ '+') (h2 : c ≠ '-') (ht : pyInt s = some t) :
    _update_volume p ("+" ++ ds) = .ok (max 0 (min (p + (d : Int)) 100)) ∧
    _update_volume p ("-" ++ ds) = .ok (max 0 (min (p - (d : Int)) 100)) ∧
    _update_volume p s = .ok (max 0 (min t 100)) :=
  ⟨update_volume_plus p hds, update_volume_minus p hds,
   update_volume_abs p t hs h1 h2 ht⟩

/-- C4 witness. -/
theorem update_relative_absolute_witness :
    _update_volume 50 ("+" ++ "7") = .ok (max 0 (min ((50 : Int) + ((7 : Nat) : Int)) 100)) ∧
    _update_volume 50 ("-" ++ "7") = .ok (max 0 (min ((50 : Int) - ((7 : Nat) : Int)) 100)) ∧
    _update_volume 50 "30" = .ok (max 0 (min (30 : Int) 100)) :=
  update_relative_absolute 50 7 "7" (by decide) "30" 30 '3' ['0']
    (by decide) (by decide) (by decide) (by decide)

/-- C5: for v in [0,100], `set` with the decimal string of v persists
    exactly that string, returns v, and a subsequent `get` parses it back
    to v (the cache must already hold a parsable value for `set` to reach
    its write, since a cold-cache read raises). -/
theorem set_then_get_roundtrip (v : Nat) (hv : v ≤ 100) (st : State)
    (c : String) (p : Int) (hc : st.volumeFile = some c) (hp : pyInt c = some p) :
    set (toString (v : Int)) st =
      (.ok (v : Int), { st with volumeFile := some (toString (v : Int)) }) ∧
    (get { st with volumeFile := some (toString (v : Int)) }).1 = .ok (v : Int) := by
  have hv' : v < 101 := Nat.lt_succ_of_le hv
  have hparse := pyInt_toString_le_100 v hv'
  have hhead := toString_head_le_100 v hv'
  constructor
  · cases hl : (toString (v : Int)).toList with
    | nil => exact absurd hl hhead.1
    | cons c0 cs0 =>
      have h1 : c0 ≠ '+' := by
        have hh := hhead.2.1
        rw [hl] at hh
        simpa using hh
      have h2 : c0 ≠ '-' := by
        have hh := hhead.2.2
        rw [hl] at hh
        simpa using hh
      have hupd : _update_volume p (toString (v : Int)) =
          .ok (max 0 (min ((v : Nat) : Int) 100)) :=
        update_volume_abs p _ hl h1 h2 hparse
      have hclamp : max 0 (min ((v : Nat) : Int) 100) = ((v : Nat) : Int) := by
        have h100 : ((v : Nat) : Int) ≤ 100 := by exact_mod_cast hv
        have h0 : (0 : Int) ≤ ((v : Nat) : Int) := Int.ofNat_nonneg v
        rw [min_eq_left h100, max_eq_right h0]
      rw [hclamp] at hupd
      simp [set, _get_warm hc hp, hupd]
  · simp [get, _get, hparse]

/-- C5 witness. -/
theorem set_then_get_roundtrip_witness :
    set (toString ((62 : Nat) : Int)) (State.mk (some "50") none []) =
      (.ok ((62 : Nat) : Int),
        State.mk (some (toString ((62 : Nat) : Int))) none []) ∧
    (get (State.mk (some (toString ((62 : Nat) : Int))) none [])).1 =
      .ok ((62 : Nat) : Int) :=
  set_then_get_roundtrip 62 (by decide) (State.mk (some "50") none []) "50" 50
    rfl (by decide)

/-- C6: a non-numeric, non-empty update expression makes `set` raise
    `ValueError` (the InvalidInput error) and leaves the state — in
    particular the stored `volume` file — exactly unchanged: the
    truncating write is opened only after a successful parse. -/
theorem set_invalid_input_no_write (s : String) (hs : s ≠ "")
    (hbad : pyInt s = none) (st : State) (c : String) (p : Int)
    (hc : st.volumeFile = some c) (hp : pyInt c = some p) :
    set s st = (.error .valueError, st) := by
  have hupd : _update_volume p s = .error .valueError := by
    cases hl : s.toList with
    | nil => exact absurd hl (toList_ne_nil_of_ne_empty hs)
    | cons c0 cs0 =>
      rw [update_volume_cons hl]
      split <;> rw [hbad]
  simp [set, _get_warm hc hp, hupd]

/-- C6 witness. -/
theorem set_invalid_input_no_write_witness :
    set "abc" (State.mk (some "50") none []) =
      (.error .valueError, State.mk (some "50") none []) :=
  set_invalid_input_no_write "abc" (by decide) (by decide)
    (State.mk (some "50") none []) "50" 50 rfl (by decide)

/-- C7 counterexample: with cached volume 50, a `--set +10` run whose
    notification call fails never reaches `commit`: the error propagates
    out of `main` (no handler) and no hardware write is issued — the
    commit step does not proceed. -/
theorem notify_failure_cex :
    mainSet (.error .dbusError) "+10" (State.mk (some "50") (some "") []) =
      (.error .dbusError, State.mk (some "60") (some "") []) ∧
    (State.mk (some "60") (some "") [] : State).hwWrites = [] := by
  decide

/-- C7 (amended): a failure of the notification call is fatal to the
    `--set` flow — `main` runs `set`, `send_notify`, `commit` in sequence
    with no exception handling, so when `send_notify` fails its error
    propagates, `commit` is not reached and no hardware write occurs. -/
theorem notify_failure_aborts_flow (reply : Except PyError Int) (s : String)
    (st st1 st2 : State) (v : Int) (e : PyError)
    (hset : set s st = (.ok v, st1))
    (hnot : send_notify reply v st1 = (.error e, st2)) :
    mainSet reply s st = (.error e, st2) ∧ st2.hwWrites = st.hwWrites := by
  constructor
  · simp [mainSet, hset, hnot]
  · have h2 : st2.hwWrites = st1.hwWrites := by
      have hh := send_notify_snd_hwWrites reply v st1
      rw [hnot] at hh
      exact hh
    have h1 : st1.hwWrites = st.hwWrites := by
      have hh := set_snd_hwWrites s st
      rw [hset] at hh
      exact hh
    exact h2.trans h1

/-- C7 witness. -/
theorem notify_failure_aborts_flow_witness :
    (mainSet (.error .dbusError) "+10" (State.mk (some "50") (some "abc") []) =
      (.error .valueError, State.mk (some "60") (some "abc") [])) ∧
    (State.mk (some "60") (some "abc") [] : State).hwWrites =
      (State.mk (some "50") (some "abc") [] : State).hwWrites :=
  notify_failure_aborts_flow (.error .dbusError) "+10"
    (State.mk (some "50") (some "abc") [])
    (State.mk (some "60") (some "abc") [])
    (State.mk (some "60") (some "abc") []) 60 .valueError (by decide) (by decide)

/-- C8 counterexample: the stored handle is NOT defaulted to 0 when the
    `notification_id` entity is absent or its content unparsable — an
    absent file raises `FileNotFoundError` (open mode `r+`), unparsable
    content raises `ValueError`, and in neither case is a notification
    requested. -/
theorem notify_handle_default_cex :
    (send_notify (.ok 1) 50 (State.mk (some "50") none [])).1 =
      .error .fileNotFoundError ∧
    (send_notify (.ok 1) 50 (State.mk (some "50") (some "abc") [])).1 =
      .error .valueError := by
  decide

/-- C8 (amended): the stored handle defaults to 0 only when the
    `notification_id` file exists with empty content; parsable content
    yields that handle, and the request then asks the service to replace
    it.  An absent file raises `FileNotFoundError`; unparsable non-empty
    content raises `ValueError`. -/
theorem notify_handle_read (reply : Except PyError Int) (volume : Int) (st : State) :
    (st.notificationFile = none →
      send_notify reply volume st = (.error .fileNotFoundError, st)) ∧
    (∀ c, st.notificationFile = some c → c ≠ "" → pyInt c = none →
      send_notify reply volume st = (.error .valueError, st)) ∧
    (∀ req st', st.notificationFile = some "" →
      send_notify reply volume st = (.ok req, st') → req.replacesId = 0) ∧
    (∀ c n req st', st.notificationFile = some c → pyInt c = some n → c ≠ "" →
      send_notify reply volume st = (.ok req, st') → req.replacesId = n) := by
  refine ⟨?_, ?_, ?_, ?_⟩
  · intro h
    simp [send_notify, h]
  · intro c hc hne hbad
    simp [send_notify, hc, readNotifyId, hne, hbad]
  · intro req st' h0 h
    cases reply with
    | error e => simp [send_notify, h0, readNotifyId] at h
    | ok newId =>
      simp [send_notify, h0, readNotifyId] at h
      obtain ⟨h1, h2⟩ := h
      subst h1
      rfl
  · intro c n req st' hc hn hne h
    cases reply with
    | error e => simp [send_notify, hc, readNotifyId, hne, hn] at h
    | ok newId =>
      simp [send_notify, hc, readNotifyId, hne, hn] at h
      obtain ⟨h1, h2⟩ := h
      subst h1
      rfl

/-- C8 witness. -/
theorem notify_handle_read_witness :
    (NotifyRequest.mk 42 "audio-volume-medium-symbolic" "Volume 50%" 50
      2000).replacesId = 42 :=
  (notify_handle_read (.ok 9) 50 (State.mk (some "50") (some "42") [])).2.2.2
    "42" 42 (NotifyRequest.mk 42 "audio-volume-medium-symbolic" "Volume 50%" 50 2000)
    (State.mk (some "50") (some "9\n") []) rfl (by decide) (by decide) (by decide)

end DDCVolume
